import Mathlib

/-!
Verification development for the skud access-control daemon
(multi-protocol terminal gateway and access-decision engine).

Bytes are modelled as `Nat` with explicit `% 256` where 8-bit overflow
matters; byte buffers are `List Nat`; Go maps with string keys are
association lists; fallible Go functions return `Option`/`Except`.
Each definition is a direct translation of the corresponding Go
function named in its doc comment.
-/

namespace Utils

/-- `utils.CRC8` inner loop: one step of the Dallas/Maxim-style CRC-8 with
polynomial 0x31, processing one byte into the running 8-bit state. -/
def crc8Update (crc b : Nat) : Nat :=
  (List.range 8).foldl
    (fun c _ =>
      if c &&& 0x80 ≠ 0 then ((c <<< 1) ^^^ 0x31) % 256 else (c <<< 1) % 256)
    ((crc ^^^ b) % 256)

/-- `utils.CRC8`: CRC-8 (poly 0x31) over a byte sequence, initial value 0. -/
def CRC8 (data : List Nat) : Nat :=
  data.foldl crc8Update 0

/-- `strings.TrimSpace` on the ASCII strings the daemon handles
(uids, keys): drop whitespace from both ends.  Implemented over the
character list so that it evaluates by reduction. -/
def trimS (s : String) : String :=
  String.mk (((s.data.dropWhile Char.isWhitespace).reverse.dropWhile Char.isWhitespace).reverse)

/-- `strings.ToUpper` on ASCII strings. -/
def upperS (s : String) : String :=
  String.mk (s.data.map Char.toUpper)

/-- `strings.ToLower` on ASCII strings. -/
def lowerS (s : String) : String :=
  String.mk (s.data.map Char.toLower)

end Utils

namespace Pocket

/-- A decoded POCKET packet: command code, flags byte and raw payload
(mirrors the fields of `types.Packet` that `pocket.DecodePacket` fills
from the frame header; the per-command `Data` map is not needed here). -/
structure Packet where
  cmd : Nat
  flags : Nat
  payload : List Nat
  deriving Repr, DecidableEq

/-- Error kinds of `pocket.DecodePacket` (Go returns error strings;
the kind is what matters). -/
inductive DecodeErr
  | tooShort
  | badMarker
  | incomplete
  | crcMismatch
  deriving Repr, DecidableEq

/-- `pocket.EncodePacket`: frame = marker 0x2A, flags, cmd, 16-bit LE
payload length, 16-bit LE checksum, payload.  The CRC is computed over
`header[:5] ++ payload`, i.e. bytes marker..length_high concatenated
with the payload, and `utils.CRC8` returns a `uint8`, so the checksum
high byte is always zero. -/
def EncodePacket (cmd flags : Nat) (payload : List Nat) : List Nat :=
  let len := payload.length
  let hdr5 := [0x2A, flags % 256, cmd % 256, len % 256, (len >>> 8) % 256]
  let crc := Utils.CRC8 (hdr5 ++ payload)
  hdr5 ++ [crc &&& 0xFF, (crc >>> 8) &&& 0xFF] ++ payload

/-- `pocket.DecodePacket`: validates marker, bounds and checksum.  Note
that the Go code computes `utils.CRC8(data[:7+payloadLen])`, a region
that contains the two checksum bytes themselves (indices 5 and 6),
and compares it against the low checksum byte `data[5]`. -/
def DecodePacket (data : List Nat) : Except DecodeErr Packet :=
  match data with
  | d0 :: d1 :: d2 :: d3 :: d4 :: d5 :: d6 :: rest =>
    if rest.length < 1 then .error .tooShort
    else if d0 ≠ 0x2A then .error .badMarker
    else
      let payloadLen := d3 + (d4 <<< 8)
      if rest.length < payloadLen then .error .incomplete
      else
        let payload := rest.take payloadLen
        -- data[:7+payloadLen] = the 7 header bytes followed by the payload
        let calcCRC := Utils.CRC8 ([d0, d1, d2, d3, d4, d5, d6] ++ payload)
        if calcCRC ≠ d5 % 256 then .error .crcMismatch
        else .ok { cmd := d2, flags := d1, payload := payload }
  | _ => .error .tooShort

/-- The byte region over which `pocket.EncodePacket` computes its CRC. -/
def encodeCrcRegion (cmd flags : Nat) (payload : List Nat) : List Nat :=
  [0x2A, flags % 256, cmd % 256, payload.length % 256, (payload.length >>> 8) % 256]
    ++ payload

/-- The byte region over which `pocket.DecodePacket` verifies its CRC on a
full frame (the first `7 + payloadLen` bytes, checksum field included). -/
def decodeCrcRegion (data : List Nat) : List Nat :=
  match data with
  | _ :: _ :: _ :: d3 :: d4 :: _ =>
    data.take (7 + (d3 + (d4 <<< 8)))
  | _ => data

end Pocket

namespace Gat

/-- Error kinds of `gat.DecodePacket`. -/
inductive DecodeErr
  | tooShort
  | badLen
  | incomplete
  | teStatusShort
  | dataShort
  | lrcShort
  | lrcMismatch
  deriving Repr, DecidableEq

/-- A decoded GAT packet.  `terminalType` is the `terminal_type` entry
that `gat.DecodePacket` puts into the `Data` map for a `REQ_MASTER`
(0xE5) frame with a non-empty payload; the `Data` fields of the other
commands are not needed by any claim and are not modelled. -/
structure Packet where
  adr : Nat
  cmd : Nat
  teStatus : Nat
  payload : List Nat
  terminalType : Option Nat
  deriving Repr, DecidableEq

/-- `gat.calculateLRC`: XOR of all bytes. -/
def calculateLRC (data : List Nat) : Nat :=
  data.foldl (fun a b => a ^^^ b) 0

/-- `gat.DecodePacket`: length byte, address, command, optional
terminal-status byte when `cmd & 0x10 != 0`, payload, LRC.  The Go code
requires `len(data) >= pktLen+1` yet computes the payload length as
`pktLen - consumed - 1` (treating `pktLen` as if it included the LRC)
and reads the LRC at the offset right after that payload. -/
def DecodePacket (data : List Nat) : Except DecodeErr Packet :=
  if data.length < 4 then .error .tooShort
  else
    let pktLen := data.getD 0 0
    if pktLen < 3 then .error .badLen
    else if data.length < pktLen + 1 then .error .incomplete
    else
      let adr := data.getD 1 0
      let cmd := data.getD 2 0
      let hasTe := cmd &&& 0x10 ≠ 0
      if hasTe ∧ data.length ≤ 3 then .error .teStatusShort
      else
        let teStatus := if hasTe then data.getD 3 0 else 0
        let consumed := if hasTe then 4 else 3
        -- Go: dataLen := pktLen - (offset - soffset) - 1, with `if dataLen > 0`
        -- guarding the slice; Nat subtraction truncates at 0 the same way.
        let dataLen := pktLen - consumed - 1
        if dataLen > 0 ∧ data.length < consumed + dataLen then .error .dataShort
        else
          let payload := if dataLen > 0 then (data.drop consumed).take dataLen else []
          let off := if dataLen > 0 then consumed + dataLen else consumed
          if data.length ≤ off then .error .lrcShort
          else
            let receivedLRC := data.getD off 0
            let calculatedLRC := calculateLRC (data.take off)
            if receivedLRC ≠ calculatedLRC then .error .lrcMismatch
            else
              .ok { adr := adr, cmd := cmd, teStatus := teStatus,
                    payload := payload,
                    terminalType := if cmd = 0xE5 then payload.head? else none }

end Gat

namespace Pool

/-- `connection.processGatData`: the framing loop the pool runs on a GAT
connection's buffer.  It is a verbatim copy of the POCKET framing: it
waits for at least 8 buffered bytes, requires marker `0x2A` at the
front (skipping one byte otherwise), and reads a 16-bit little-endian
payload length from offsets 3..4.  Returns the leftover buffer and the
byte chunks handed to `handleGatPacket`. -/
def processGatData (buf : List Nat) : List Nat × List (List Nat) :=
  if _h8 : buf.length < 8 then (buf, [])
  else if buf.getD 0 0 ≠ 0x2A then
    processGatData (buf.drop 1)
  else
    let payloadLen := buf.getD 3 0 + ((buf.getD 4 0) <<< 8)
    let packetLen := 8 + payloadLen
    if buf.length < packetLen then (buf, [])
    else
      let r := processGatData (buf.drop packetLen)
      (r.1, buf.take packetLen :: r.2)
termination_by buf.length
decreasing_by
  · simp only [List.length_drop]
    omega
  · simp only [List.length_drop]
    omega

end Pool

namespace Jsp

/-- ASCII upper-casing of one byte, as `strings.ToUpper` acts on the
ASCII bytes that can make up a hex length field. -/
def byteUpper (b : Nat) : Nat :=
  if 97 ≤ b ∧ b ≤ 122 then b - 32 else b

/-- Whitespace bytes removed by `strings.TrimSpace`. -/
def isSpaceByte (b : Nat) : Bool :=
  b = 32 ∨ b = 9 ∨ b = 10 ∨ b = 13 ∨ b = 11 ∨ b = 12

/-- Value of one upper-case hex digit byte. -/
def hexDigitVal (b : Nat) : Option Nat :=
  if 48 ≤ b ∧ b ≤ 57 then some (b - 48)
  else if 65 ≤ b ∧ b ≤ 70 then some (b - 65 + 10)
  else none

/-- `jsp.DecodeHex` on the raw bytes of the length field: trim
whitespace, upper-case, require an even length in 2..6 and all hex
digits, then parse base 16. -/
def DecodeHex (bytes : List Nat) : Option Nat :=
  let t := ((bytes.dropWhile isSpaceByte).reverse.dropWhile isSpaceByte).reverse
  let u := t.map byteUpper
  if u.length % 2 ≠ 0 then none
  else if u.length < 2 ∨ 6 < u.length then none
  else
    u.foldl (fun acc b =>
      match acc, hexDigitVal b with
      | some v, some d => some (v * 16 + d)
      | _, _ => none) (some 0)

/-- The three non-error results `jsp.TryReadPacket` can return
(`false` = no more packets, an `int` = need that many more bytes, or a
decoded JSON object). -/
inductive TRRes (J : Type)
  | noMore
  | need (n : Nat)
  | packet (j : J)
  deriving Repr, DecidableEq

/-- `jsp.TryReadPacket`, parameterised by the JSON decoder
(`json.Unmarshal` composed with `arrLower`): returns the Go result
(error, or one of `TRRes`) together with the connection buffer it
leaves behind.  Frame: SOF 0x03, 4 ASCII hex digits of JSON length,
JSON bytes, EOF 0x02. -/
def TryReadPacket {J : Type} (parse : List Nat → Option J) (buf : List Nat) :
    Except Unit (TRRes J) × List Nat :=
  if buf.length = 0 then (.ok .noMore, buf)
  else
    match buf.findIdx? (fun b => b = 0x03) with
    | none => (.ok .noMore, [])                    -- no SOF: clear buffer
    | some pos =>
      let b := buf.drop pos                        -- drop data before SOF
      if b.length < 5 then (.ok (.need (5 - b.length)), b)
      else
        match DecodeHex ((b.drop 1).take 4) with
        | none => (.ok .noMore, b.drop 1)          -- invalid hex: skip one byte
        | some pkLen =>
          let fullPkLen := 1 + 4 + pkLen + 1
          if b.length < fullPkLen then (.ok (.need (fullPkLen - b.length)), b)
          else if b.getD (1 + 4 + pkLen) 0 ≠ 0x02 then
            (.ok .noMore, b.drop 1)                -- invalid EOF: skip one byte
          else
            let jsonData := (b.drop 5).take pkLen
            let rest := b.drop fullPkLen
            match parse jsonData with
            | none => (.error (), rest)            -- json.Unmarshal failed
            | some j => (.ok (.packet j), rest)

end Jsp

namespace Pool

/-- `connection.processJSPData`'s frame loop, with explicit fuel; `none`
means the loop has not finished within `fuel` iterations.  Mirrors the
Go `for { switch result.(type) ... }`: an error from `TryReadPacket`
breaks the loop, a `need more data` result returns, a packet is handled
and the loop continues — and on the `noMore` result the Go `break`
exits only the `switch`, so the loop runs again on the same buffer. -/
def processJSPLoop {J : Type} (parse : List Nat → Option J) :
    Nat → List Nat → List J → Option (List J × List Nat)
  | 0, _, _ => none
  | fuel + 1, buf, acc =>
    match Jsp.TryReadPacket parse buf with
    | (.error _, rest) => some (acc, rest)
    | (.ok (.need _), rest) => some (acc, rest)
    | (.ok (.packet j), rest) => processJSPLoop parse fuel rest (acc ++ [j])
    | (.ok .noMore, rest) => processJSPLoop parse fuel rest acc

end Pool

namespace Cardlist

/-- Lookup in a string-keyed Go map modelled as an association list. -/
def lookup (l : List (String × String)) (k : String) : Option String :=
  (l.find? (fun p => p.1 = k)).map (fun p => p.2)

/-- `cardlist.CheckGlobal`: trim and upper-case the uid, then look it up
in the global deny list (`gmclist`); empty string means not found. -/
def CheckGlobal (gmclist : List (String × String)) (uid : String) : String :=
  match lookup gmclist (Utils.upperS (Utils.trimS uid)) with
  | some msg => msg
  | none => ""

/-- `cardlist.CheckSecondary`: same on the secondary list (`mclist`). -/
def CheckSecondary (mclist : List (String × String)) (uid : String) : String :=
  match lookup mclist (Utils.upperS (Utils.trimS uid)) with
  | some msg => msg
  | none => ""

end Cardlist

namespace Memreg

/-- `utils.MEMREG_MODE_*`. -/
inductive Mode
  | auto
  | set
  | clr
  | disp
  | take
  deriving Repr, DecidableEq

/-- `utils.MemRegKey`. -/
structure MemRegKey where
  storage : String
  mode : Mode
  deriving Repr, DecidableEq

/-- One character of the `[A-Za-z\d_\-+]` class of `utils.ParseMemRegKey`. -/
def validSegChar (c : Char) : Bool :=
  c.isAlpha ∨ c.isDigit ∨ c = '_' ∨ c = '-' ∨ c = '+'

/-- A non-empty run of class characters (one regex capture group). -/
def validSeg (s : String) : Bool :=
  1 ≤ s.length ∧ s.data.all validSegChar

/-- Split a character list on `'/'` (the behaviour of
`strings.Split`-style splitting used to model the key regex). -/
def splitOnSlash : List Char → List (List Char)
  | [] => [[]]
  | c :: rest =>
    match splitOnSlash rest with
    | seg :: segs => if c = '/' then [] :: seg :: segs else (c :: seg) :: segs
    | [] => [[c]]

/-- The mode suffix switch of `utils.ParseMemRegKey` (an unknown suffix
falls through to `MEMREG_MODE_AUTO`). -/
def modeOf (s : String) : Mode :=
  let m := Utils.lowerS (Utils.trimS s)
  if m = "set" ∨ m = "add" then .set
  else if m = "clr" ∨ m = "clear" ∨ m = "del" then .clr
  else if m = "disp" then .disp
  else if m = "take" then .take
  else .auto

/-- `utils.ParseMemRegKey`: trim, bound the length to 1..64, and match
`^([A-Za-z\d_\-+]+)(?:\/([A-Za-z\d_\-+]+))?$`. -/
def ParseMemRegKey (key : String) : Option MemRegKey :=
  let k := Utils.trimS key
  if k.length < 1 ∨ 64 < k.length then none
  else
    match splitOnSlash k.data with
    | [a] =>
      if validSeg (String.mk a) then some ⟨String.mk a, .auto⟩ else none
    | [a, b] =>
      if validSeg (String.mk a) ∧ validSeg (String.mk b)
      then some ⟨String.mk a, modeOf (String.mk b)⟩ else none
    | _ => none

/-- The in-memory MEMREG store `storage_key → uid_key → value`; values
are only ever `true`, so a bucket is the list of uid keys present. -/
abbrev MemStore := List (String × List String)

/-- The bucket for one storage key (empty if absent). -/
def bucket (st : MemStore) (sk : String) : List String :=
  ((List.find? (fun p => p.1 = sk) st).map (fun p => p.2)).getD []

/-- Replace (or create) the bucket for one storage key. -/
def putBucket (st : MemStore) (sk : String) (l : List String) : MemStore :=
  match st with
  | [] => [(sk, l)]
  | p :: rest => if p.1 = sk then (sk, l) :: rest else p :: putBucket rest sk l

/-- `utils.MemRegStorage.Set` (value `true`): parse both keys, then
insert the uid key into the storage bucket; `none` on a parse error. -/
def memSet (st : MemStore) (storageKey uidKey : String) : Option MemStore :=
  match ParseMemRegKey storageKey, ParseMemRegKey uidKey with
  | some sk, some uk =>
    let b := bucket st sk.storage
    some (putBucket st sk.storage (if uk.storage ∈ b then b else b ++ [uk.storage]))
  | _, _ => none

/-- `utils.MemRegStorage.Del`: parse both keys, then delete the uid key
from the storage bucket; `none` on a parse error. -/
def memDel (st : MemStore) (storageKey uidKey : String) : Option MemStore :=
  match ParseMemRegKey storageKey, ParseMemRegKey uidKey with
  | some sk, some uk =>
    some (putBucket st sk.storage ((bucket st sk.storage).filter (fun u => u ≠ uk.storage)))
  | _, _ => none

/-- `utils.MemRegStorage.Has` (via `Get`): parse both keys, then report
whether the uid key is present; `none` on a parse error. -/
def memHas (st : MemStore) (storageKey uidKey : String) : Option Bool :=
  match ParseMemRegKey storageKey, ParseMemRegKey uidKey with
  | some sk, some uk => some (decide (uk.storage ∈ bucket st sk.storage))
  | _, _ => none

end Memreg

namespace Pool

/-- `getMemRegMessage` in the connection package: the per-storage message
tables (`towel` and the generic fallback). -/
def getMemRegMessage (storage msgType : String) : String :=
  let towel : List (String × String) :=
    [("set", "Полотенце\n[ВЫДАНО]\nУСПЕШНО"),
     ("clr", "Полотенце\n[СДАНО]\nУСПЕШНО"),
     ("info_set", "Ошибка\nПолотенце:\nуже было ВЫДАНО"),
     ("info_clr", "Полотенце:\n[НЕ ВЫДАНО]"),
     ("do_set", "Возьмите полотенце"),
     ("do_clr", "Сдайте полотенце"),
     ("denied", "СДАЙТЕ\nПОЛОТЕНЦЕ")]
  let dflt : List (String × String) :=
    [("set", "Отметка\n[УСТАНОВЛЕНА]\nУСПЕШНО"),
     ("clr", "Отметка\n[СНЯТА]\nУСПЕШНО"),
     ("info_set", "Статус отметки:\n[УСТАНОВЛЕНА]"),
     ("info_clr", "Статус отметки:\n[СНЯТА]"),
     ("do_set", "Совершите действие"),
     ("do_clr", "Совершите действие"),
     ("denied", "СНИМИТЕ\nОТМЕТКУ")]
  match (if storage = "towel" then Cardlist.lookup towel msgType else none) with
  | some msg => msg
  | none =>
    match Cardlist.lookup dflt msgType with
    | some msg => msg
    | none => "Ошибка"

/-- Result of `handleMemRegDevice`: the updated store, the message and
sound of the Interactive frame sent back, and the success flag. -/
structure MemRegOutcome where
  store : Memreg.MemStore
  message : String
  result : Bool
  sound : Nat
  deriving Repr, DecidableEq

/-- `connection.handleMemRegDevice`: parse the terminal's `memreg_dev`
key and the read uid, look up the current value, and act according to
the mode (`auto` toggles, `set`/`disp` only add, `clr`/`take` only
delete).  `none` models the early returns (no settings, missing uid,
parse or storage errors) where no frame is sent. -/
def handleMemRegDevice (memRegDev uid : String) (store : Memreg.MemStore) :
    Option MemRegOutcome :=
  if memRegDev = "" then none
  else if uid = "" then none
  else
    match Memreg.ParseMemRegKey memRegDev with
    | none => none
    | some mk =>
      match Memreg.ParseMemRegKey uid with
      | none => none
      | some uk =>
        match Memreg.memHas store mk.storage uk.storage with
        | none => none
        | some hasValue =>
          match mk.mode with
          | .auto =>
            if ¬hasValue then
              match Memreg.memSet store mk.storage uk.storage with
              | some st => some ⟨st, getMemRegMessage mk.storage "set", true, 1⟩
              | none => some ⟨store, "Ошибка установки отметки", false, 3⟩
            else
              match Memreg.memDel store mk.storage uk.storage with
              | some st => some ⟨st, getMemRegMessage mk.storage "clr", true, 1⟩
              | none => some ⟨store, "Ошибка снятия отметки", false, 3⟩
          | .set | .disp =>
            if ¬hasValue then
              match Memreg.memSet store mk.storage uk.storage with
              | some st => some ⟨st, getMemRegMessage mk.storage "set", true, 1⟩
              | none => some ⟨store, "Ошибка установки отметки", false, 3⟩
            else
              some ⟨store, getMemRegMessage mk.storage "info_set", false, 3⟩
          | .clr | .take =>
            if hasValue then
              match Memreg.memDel store mk.storage uk.storage with
              | some st => some ⟨st, getMemRegMessage mk.storage "clr", true, 1⟩
              | none => some ⟨store, "Ошибка снятия отметки", false, 3⟩
            else
              some ⟨store, getMemRegMessage mk.storage "info_clr", false, 3⟩

end Pool

/-- Side effects the session manager and the tag-read dispatcher emit
through the pool, the backend client and the persistence collaborator.
They stand for the corresponding `Send`/HTTP/logging calls. -/
inductive Eff
  | sendPocketInteractive (cmd flags : Nat) (text : String) (delayMs sound : Nat) (tillRemoved : Bool)
  | sendPocketSignal (subcode flags : Nat) (timeoutBytes : List Nat)
  | sendJspMessage (text : String) (timeMs : Nat)
  | sendJspRelayOpen (uid caption : String) (timeMs : Nat) (cid : String)
  | sendJspRelayClose
  | backendCheck (uid terminalId : String)
  | backendReport (uid terminalId : String) (granted : Bool)
  | sendPocketLock (text : String)
  | sendPocketUnlock
  | registerGTime
  | webEvent (name : String)
  | logSession
  deriving Repr, DecidableEq

namespace SessionM

/-- `types.SessionStage` (iota order of `SESSION_STAGE_*`). -/
inductive Stage
  | init
  | kpoResult
  | kpoDirect
  | camResult
  | openFirst
  | firstPassed
  | openSecond
  | secondPassed
  | passed
  | lastAnswer
  | done
  deriving Repr, DecidableEq

/-- The numeric value of each stage in the Go `iota` enumeration. -/
def Stage.idx : Stage → Nat
  | .init => 0
  | .kpoResult => 1
  | .kpoDirect => 2
  | .camResult => 3
  | .openFirst => 4
  | .firstPassed => 5
  | .openSecond => 6
  | .secondPassed => 7
  | .passed => 8
  | .lastAnswer => 9
  | .done => 10

/-- `types.KPOResult`. -/
inductive KPORes
  | undef
  | yes
  | no
  | fail
  deriving Repr, DecidableEq

/-- `types.CamResult`. -/
inductive CamRes
  | undef
  | yes
  | no
  | fail
  | nf
  deriving Repr, DecidableEq

/-- `session.Data["kpo"]`: the nested map may lack a typed `result` or
`message` entry, hence the `Option` fields. -/
structure KpoBag where
  result : Option KPORes := none
  message : Option String := none
  deriving Repr, DecidableEq

/-- `session.Data["cam"]`. -/
structure CamBag where
  result : Option CamRes := none
  message : Option String := none
  deriving Repr, DecidableEq

/-- The map the PASS-wait machinery stores under `session.Data["passed"]`. -/
structure PassedBag where
  passed : Bool
  tmo : Bool := false
  key : String := ""
  deriving Repr, DecidableEq

/-- `session.Data["passed"]` holds either the PASS-wait map or the plain
bool written by `processSecondPassed`. -/
inductive PassedVal
  | b (v : Bool)
  | bag (p : PassedBag)
  deriving Repr, DecidableEq

/-- `types.SessionWait`; `paramKey` is `Params["key"]` of a PASS wait. -/
structure WaitRec where
  procType : Nat
  expireTime : Nat
  dstStage : Stage
  paramKey : Option String := none
  deriving Repr, DecidableEq

/-- `session.Data["rfid"]`. -/
structure RfidBag where
  uid : String
  auth : Option Bool := none
  tempCard : Option Bool := none
  lockersDataF : List String := []
  deriving Repr, DecidableEq

/-- `session.Data["gat_solar"]` as attached by `Daemon.ProcessTagRead`. -/
structure GatSolarBag where
  terminalType : Nat
  time : Option Int := none
  price : Option Int := none
  vendor : Option Int := none
  regQuery : Bool := false
  deriving Repr, DecidableEq

/-- `types.Session` together with the typed slots of its `Data` bag that
the session manager reads and writes. -/
structure Sess where
  id : Nat
  key : String
  apkey : String
  uid : String
  cid : String := ""
  stage : Stage := .init
  rfid : Option RfidBag := none
  kpo : Option KpoBag := none
  cam : Option CamBag := none
  passedVal : Option PassedVal := none
  passedFirst : Option Bool := none
  passedSecond : Option Bool := none
  result : Option Int := none
  message : Option String := none
  errorMessage : Option String := none
  passTime : Option Int := none
  gatSolar : Option GatSolarBag := none
  wait : Option WaitRec := none
  reqTime : Nat := 0
  processed : Bool := false
  completed : Bool := false
  reportSent : Bool := false
  alive : Bool := true
  deriving Repr, DecidableEq

/-- The session-manager configuration fields used by the modelled code
(`types.Config`). -/
structure Config where
  camServiceActive : Bool := false
  camAlwaysPass : Bool := false
  camServiceResultMsgNo : String := ""
  camServiceResultMsgNf : String := ""
  camServiceResultMsgFail : String := ""
  serviceAutofixExpired : Bool := false
  serviceFixedMsg : String := ""
  serviceLinkErrMsg : String := ""
  serviceDeniedMsg : String := ""
  serviceRequestExpireTime : Nat := 0
  deriving Repr, DecidableEq

/-- `SessionManager.setKpoResult`: write result and message into the
session's `kpo` map (creating it if absent). -/
def setKpoResult (s : Sess) (r : KPORes) (msg : String) : Sess :=
  { s with kpo := some { result := some r, message := some msg } }

/-- `SessionManager.waitDone`: clear the wait and move to its destination
stage — unless the destination is the zero value `SESSION_STAGE_INIT`. -/
def waitDone (s : Sess) : Sess :=
  match s.wait with
  | none => s
  | some w =>
    let s := { s with wait := none }
    if w.dstStage ≠ .init then { s with stage := w.dstStage } else s

/-- `SessionManager.checkWait` at time `now`: returns the updated session
and whether the wait has been resolved (`true` = continue processing). -/
def checkWait (cfg : Config) (now : Nat) (s : Sess) : Sess × Bool :=
  match s.wait with
  | none => (s, true)
  | some w =>
    if w.procType = 0x01 then            -- SESSION_PROC_KPO
      match s.kpo with
      | some k =>
        match k.result with
        | some r =>
          if r ≠ .undef then (waitDone s, true)
          else if now > w.expireTime then
            let s := if cfg.serviceAutofixExpired
              then setKpoResult s .yes cfg.serviceFixedMsg
              else setKpoResult s .no cfg.serviceLinkErrMsg
            (waitDone s, true)
          else (s, false)
        | none =>
          if now > w.expireTime then
            let s := if cfg.serviceAutofixExpired
              then setKpoResult s .yes cfg.serviceFixedMsg
              else setKpoResult s .no cfg.serviceLinkErrMsg
            (waitDone s, true)
          else (s, false)
      | none =>
        if now > w.expireTime then
          let s := if cfg.serviceAutofixExpired
            then setKpoResult s .yes cfg.serviceFixedMsg
            else setKpoResult s .no cfg.serviceLinkErrMsg
          (waitDone s, true)
        else (s, false)
    else if w.procType = 0x02 then       -- SESSION_PROC_CAM
      match s.cam with
      | some c =>
        match c.result with
        | some r =>
          if r ≠ .undef then (waitDone s, true)
          else if now > w.expireTime then
            (waitDone { s with cam := some { c with result := some .no } }, true)
          else (s, false)
        | none =>
          if now > w.expireTime then
            (waitDone { s with cam := some { c with result := some .no } }, true)
          else (s, false)
      | none =>
        if now > w.expireTime then (waitDone s, true) else (s, false)
    else if w.procType = 0x03 then       -- SESSION_PROC_PASS
      let tmoBag : PassedVal := .bag { passed := false, tmo := true, key := w.paramKey.getD "" }
      match s.passedVal with
      | some (.bag p) =>
        if w.paramKey.getD "" = "" ∨ w.paramKey.getD "" = p.key then (waitDone s, true)
        else if now > w.expireTime then
          (waitDone { s with passedVal := some tmoBag }, true)
        else (s, false)
      | _ =>
        if now > w.expireTime then
          (waitDone { s with passedVal := some tmoBag }, true)
        else (s, false)
    else (waitDone s, true)              -- unknown proc type

/-- `SessionManager.sendAllowMessage`: a JSP relay-open with the pass time
(`Data["pass_time"]`, default 3000 ms) and the session's cid (uid when
empty). -/
def sendAllowMessage (s : Sess) (message : String) : List Eff :=
  let passTime : Int :=
    match s.passTime with
    | some pt => if pt > 0 then pt else 3000
    | none => 3000
  let cid := if s.cid = "" then s.uid else s.cid
  [Eff.sendJspRelayOpen s.uid message passTime.toNat cid]

/-- `SessionManager.sendDenyMessage`: close the relay, then show the deny
message for 1500 ms. -/
def sendDenyMessage (message : String) : List Eff :=
  [Eff.sendJspRelayClose, Eff.sendJspMessage message 1500]

/-- `SessionManager.processKpoResult`. -/
def processKpoResult (cfg : Config) (s : Sess) : Sess × List Eff :=
  match s.kpo with
  | none => (s, [])                      -- Go: returns an error, session untouched
  | some k =>
    match k.result with
    | none => (s, [])                    -- wait for result
    | some r =>
      let message := if k.message.getD "" = "" then "Проходите" else k.message.getD ""
      if r ≠ .yes then
        ({ s with result := some 0, message := some message, stage := .lastAnswer }, [])
      else
        let s := { s with result := some 1, message := some message }
        if cfg.camServiceActive then ({ s with stage := .openFirst }, [])
        else ({ s with stage := .lastAnswer }, [])

/-- `SessionManager.processKpoDirect`. -/
def processKpoDirect (s : Sess) : Sess × List Eff :=
  match s.kpo with
  | none => (s, [])
  | some k =>
    match k.result with
    | none => (s, [])                    -- wait for result
    | some r =>
      let message := k.message.getD ""
      match r with
      | .yes =>
        ({ s with result := some 1, message := some message, stage := .lastAnswer },
         sendAllowMessage s message)
      | .no =>
        ({ s with result := some 0, message := some message, stage := .lastAnswer },
         sendDenyMessage message)
      | _ =>
        ({ s with result := some 0, message := some message, stage := .lastAnswer },
         sendDenyMessage message)

/-- `SessionManager.processOpenFirst`. -/
def processOpenFirst (s : Sess) : Sess × List Eff :=
  ({ s with stage := .firstPassed }, [])

/-- `SessionManager.processFirstPassed`. -/
def processFirstPassed (cfg : Config) (s : Sess) : Sess × List Eff :=
  match s.passedFirst with
  | none => (s, [])                      -- wait for pass event
  | some passed =>
    if ¬passed then
      ({ s with result := some 0, message := some "Проход не зарегистрирован", stage := .lastAnswer }, [])
    else if cfg.camServiceActive ∧ s.cid ≠ "" then
      ({ s with stage := .camResult }, [])
    else
      ({ s with stage := .openSecond }, [])

/-- `SessionManager.processCamResult`. -/
def processCamResult (cfg : Config) (s : Sess) : Sess × List Eff :=
  match s.cam with
  | none => (s, [])
  | some c =>
    match c.result with
    | none => (s, [])
    | some r =>
      match r with
      | .yes => ({ s with result := some 1, stage := .openSecond }, [])
      | .no =>
        ({ s with result := some 0, message := some cfg.camServiceResultMsgNo, stage := .lastAnswer }, [])
      | .nf =>
        ({ s with result := some 0, message := some cfg.camServiceResultMsgNf, stage := .lastAnswer }, [])
      | .fail =>
        ({ s with result := some 0, message := some cfg.camServiceResultMsgFail, stage := .lastAnswer }, [])
      | .undef =>
        if cfg.camAlwaysPass then ({ s with result := some 1, stage := .openSecond }, [])
        else ({ s with result := some 0, message := some "Ошибка распознавания", stage := .lastAnswer }, [])

/-- `SessionManager.processOpenSecond`. -/
def processOpenSecond (s : Sess) : Sess × List Eff :=
  ({ s with stage := .secondPassed }, [])

/-- `SessionManager.processSecondPassed`. -/
def processSecondPassed (s : Sess) : Sess × List Eff :=
  match s.passedSecond with
  | none => (s, [])
  | some passed =>
    ({ s with passedVal := some (.b passed), stage := .passed }, [])

/-- `SessionManager.processPassed`: report to the backend (the report
reads `Data["result"]` with an unchecked assertion — always set by the
transitions that reach this stage), then finish. -/
def processPassed (s : Sess) : Sess × List Eff :=
  let effs :=
    match s.result with
    | some v => [Eff.backendReport s.uid s.key (v > 0)]
    | none => []
  ({ s with reportSent := true, stage := .done }, effs)

/-- `SessionManager.processLastAnswer`: send the final allow or deny
primitive; granted sessions go back to `PASSED`, denied ones to `DONE`. -/
def processLastAnswer (s : Sess) : Sess × List Eff :=
  let result := s.result.getD 0
  let message := s.message.getD ""
  if result > 0 then
    ({ s with stage := .passed }, sendAllowMessage s message)
  else
    ({ s with stage := .done }, sendDenyMessage message)

/-- `SessionManager.processDone`. -/
def processDone (s : Sess) : Sess × List Eff :=
  let s := if ¬s.reportSent then { s with reportSent := true } else s
  ({ s with processed := true, completed := true }, [Eff.logSession])

/-- The stage switch of `SessionManager.ProcessSessionStage` (after any
wait has been resolved); `INIT` has no case and falls through. -/
def stageStep (cfg : Config) (s : Sess) : Sess × List Eff :=
  match s.stage with
  | .init => (s, [])
  | .kpoResult => processKpoResult cfg s
  | .kpoDirect => processKpoDirect s
  | .openFirst => processOpenFirst s
  | .firstPassed => processFirstPassed cfg s
  | .camResult => processCamResult cfg s
  | .openSecond => processOpenSecond s
  | .secondPassed => processSecondPassed s
  | .passed => processPassed s
  | .lastAnswer => processLastAnswer s
  | .done => processDone s

/-- `SessionManager.ProcessSessionStage` on one session at time `now`:
skip processed/completed sessions, resolve a pending wait, then run the
stage switch. -/
def processSessionStage (cfg : Config) (now : Nat) (s : Sess) : Sess × List Eff :=
  if s.processed ∨ s.completed then (s, [])
  else
    match s.wait with
    | some _ =>
      let (s, proceed) := checkWait cfg now s
      if ¬proceed then (s, []) else stageStep cfg s
    | none => stageStep cfg s

end SessionM

namespace Httpclient

/-- A parsed JSON value in the backend response body, as Go's
`json.Unmarshal` into `map[string]interface{}` types it: numbers are
`float64` (here `Int`, all observed values are integral), strings are
`string`, anything else fails both type assertions. -/
inductive JVal
  | num (v : Int)
  | str (s : String)
  | other
  deriving Repr, DecidableEq

/-- `httpclient.HTTPResponse`: status code and the parsed JSON object
(`Request1C` turns an unparseable non-empty body into the single entry
`raw_response → <body>`). -/
structure HResp where
  statusCode : Nat
  data : List (String × JVal)
  deriving Repr, DecidableEq

/-- A `resp.Data[key].(float64)` type assertion. -/
def lookupNum (d : List (String × JVal)) (k : String) : Option Int :=
  match (d.find? (fun p => p.1 = k)).map (fun p => p.2) with
  | some (JVal.num v) => some v
  | _ => none

/-- A `resp.Data[key].(string)` type assertion. -/
def lookupStr (d : List (String × JVal)) (k : String) : Option String :=
  match (d.find? (fun p => p.1 = k)).map (fun p => p.2) with
  | some (JVal.str s) => some s
  | _ => none

/-- `utils.GetStringValue`: the string at `key`, or the default. -/
def GetStringValue (d : List (String × JVal)) (k dflt : String) : String :=
  (lookupStr d k).getD dflt

/-- The response-interpretation part of
`httpclient.CheckAccessWithRole` (after `Request1C` returned a
response): HTTP 500 is a hard deny; otherwise the recognised numeric
fields are tried in the order `RESULTVAL`, `RESULT`, `GRANT_ACCESS`,
and a body with none of them (e.g. an unparseable one) counts as
granted with the configured fixed message; finally an empty message is
replaced by the fixed (granted) or denied message. -/
def checkAccessInterpret (cfg : SessionM.Config) (resp : HResp) :
    SessionM.KPORes × String :=
  let rm : SessionM.KPORes × String :=
    if resp.statusCode = 500 then
      (.no, cfg.serviceDeniedMsg)
    else
      match lookupNum resp.data "RESULTVAL" with
      | some v =>
        ((if v > 0 then .yes else .no), GetStringValue resp.data "MSGSTR" cfg.serviceFixedMsg)
      | none =>
        match lookupNum resp.data "RESULT" with
        | some v =>
          let msg :=
            match lookupStr resp.data "MESSAGE" with
            | some m => m
            | none =>
              match lookupStr resp.data "DENYREASON" with
              | some m => m
              | none => cfg.serviceFixedMsg
          ((if v > 0 then .yes else .no), msg)
        | none =>
          match lookupNum resp.data "GRANT_ACCESS" with
          | some v =>
            ((if v > 0 then .yes else .no), GetStringValue resp.data "TEXT" cfg.serviceFixedMsg)
          | none =>
            (.yes, cfg.serviceFixedMsg)    -- unknown format, assume success
  if rm.2 = "" then
    (rm.1, if rm.1 = .yes then cfg.serviceFixedMsg else cfg.serviceDeniedMsg)
  else rm

end Httpclient

namespace Pool

/-- `types.TerminalType` (a Go string; `unknown` stands for the zero
value "" and any other unrecognised string). -/
inductive TType
  | gat
  | pocket
  | sphinx
  | jsp
  | unknown
  deriving Repr, DecidableEq

/-- The fields of `types.TerminalSettings` (and its `Extra` map) that
the modelled code reads. -/
structure TerminalSettings where
  id : String := ""
  ttype : TType := .unknown
  regQuery : Bool := false
  denyLockers : Bool := false
  denyCT : Bool := false
  memRegDev : String := ""
  memRegDeny : String := ""
  memRegRole : String := ""
  ctRole : String := ""
  readerLocked : Option String := none        -- Extra["reader_locked"]
  lastLockersF : Option (List String) := none -- Extra["last_lockers"] (formatted)
  lastUID : Option String := none             -- Extra["last_uid"]
  lastTempCard : Option Bool := none          -- Extra["last_temp_card"]
  gatSolar : Option SessionM.GatSolarBag := none -- Extra["gat_terminal_type"/"gat_solar_*"]
  deriving Repr, DecidableEq

/-- The per-connection state of `types.Connection` the modelled code
reads: liveness, settings and whether the JSP state block exists. -/
structure Conn where
  connected : Bool := true
  settings : Option TerminalSettings := none
  jspInit : Bool := false                     -- JSPConn != nil
  deriving Repr, DecidableEq

/-- The pool's connection map. -/
abbrev ConnMap := List (String × Conn)

/-- `connections[key]` lookup. -/
def getConn (m : ConnMap) (key : String) : Option Conn :=
  (List.find? (fun p => p.1 = key) m).map (fun p => p.2)

/-- Replace the connection stored under `key`. -/
def putConn (m : ConnMap) (key : String) (c : Conn) : ConnMap :=
  match m with
  | [] => [(key, c)]
  | p :: rest => if p.1 = key then (key, c) :: rest else p :: putConn rest key c

/-- `connection.LockTerminal`: refuse only when the connection is missing
or down; otherwise unconditionally store the caller as
`Extra["reader_locked"]` — there is no check against an existing owner —
then send the protocol's lock primitive (an error for a JSP connection
whose state block is missing, though the owner was already written). -/
def LockTerminal (m : ConnMap) (key sessionId text : String) :
    ConnMap × Except String (List Eff) :=
  match getConn m key with
  | none => (m, .error "connection not found or not connected")
  | some c =>
    if ¬c.connected then (m, .error "connection not found or not connected")
    else
      let st := c.settings.getD {}
      let st := { st with readerLocked := some sessionId }
      let m := putConn m key { c with settings := some st }
      match st.ttype with
      | .pocket => (m, .ok [Eff.sendPocketLock text])
      | .jsp =>
        let text := if text = "" then "Ожидание..." else text
        if c.jspInit then (m, .ok [Eff.sendJspMessage text 0])
        else (m, .error "JSP connection not initialized")
      | _ => (m, .ok [])

/-- `connection.UnlockTerminal`: refuse when the connection is missing or
down, when the terminal is not locked, or when the caller is not the
lock owner; otherwise clear the lock and send the unlock primitive. -/
def UnlockTerminal (m : ConnMap) (key sessionId : String) :
    ConnMap × Except String (List Eff) :=
  match getConn m key with
  | none => (m, .error "connection not found or not connected")
  | some c =>
    if ¬c.connected then (m, .error "connection not found or not connected")
    else
      match c.settings with
      | none => (m, .error "terminal not locked")
      | some st =>
        match st.readerLocked with
        | none => (m, .error "terminal not locked by session")
        | some owner =>
          if owner ≠ sessionId then (m, .error "terminal not locked by session")
          else
            let st := { st with readerLocked := none }
            let m := putConn m key { c with settings := some st }
            match st.ttype with
            | .pocket => (m, .ok [Eff.sendPocketUnlock])
            | .jsp =>
              if c.jspInit then (m, .ok [Eff.sendJspMessage "" 0])
              else (m, .error "JSP connection not initialized")
            | _ => (m, .ok [])

end Pool

namespace SessionMgr

open SessionM

/-- `fmt.Sprintf("session_%d_%d", time.Now().Unix(), sm.idGen)` of
`SessionManager.generateSessionID`. -/
def sessionIdString (now idGen : Nat) : String :=
  "session_" ++ toString now ++ "_" ++ toString idGen

/-- `fmt.Sprintf("%v", chunk)` for a slice of strings. -/
def sprintfSliceV (l : List String) : String :=
  "[" ++ String.intercalate " " l ++ "]"

/-- The "Сдайте шкафы:" message `checkTagReadDeny` builds out of up to
three chunks of three formatted locker entries. -/
def denyLockersMessage (l : List String) : String :=
  let chunks := min (l.length / 3) 3
  (List.range chunks).foldl
    (fun m i => m ++ " " ++ sprintfSliceV ((l.drop (i * 3)).take 3))
    "Сдайте шкафы:"

/-- `SessionManager.checkTagReadDeny`: deny (and jump to `LAST_ANSWER`)
when the tag was read without auth, when `deny_lockers` is set and the
session carries lockers, or when `deny_ct` is set and the card is a
temporary one.  `none` settings (or a missing rfid bag) never deny. -/
def checkTagReadDeny (ost : Option Pool.TerminalSettings) (s : Sess) : Sess × Bool :=
  match ost with
  | none => (s, false)
  | some st =>
    match s.rfid with
    | none => (s, false)
    | some rfid =>
      let auth := rfid.auth.getD false
      if ¬auth then
        let msg := "Метка не прочитана"
        ({ s with errorMessage := some msg, result := some 0, message := some msg, stage := .lastAnswer }, true)
      else if st.denyLockers ∧ rfid.lockersDataF ≠ [] then
        let msg := denyLockersMessage rfid.lockersDataF
        ({ s with errorMessage := some msg, result := some 0, message := some msg, stage := .lastAnswer }, true)
      else if st.denyCT ∧ rfid.tempCard.getD false then
        let msg := "Это карта\nдля\nкартоприемника"
        ({ s with errorMessage := some msg, result := some 0, message := some msg, stage := .lastAnswer }, true)
      else (s, false)

/-- `SessionManager.CreateSession`: unconditionally register a fresh
session in stage `INIT` under a newly generated id — no check against
an existing session for the same terminal key. -/
def createSession (idGen : Nat) (uid key apkey : String) : Nat × Sess :=
  let idGen := idGen + 1
  (idGen,
   { id := idGen, key := key, apkey := apkey, uid := uid, stage := .init, alive := true })

/-- `SessionManager.StartSession`: create the session, store the rfid
data, run `checkTagReadDeny`, and unless denied lock the terminal
(ignoring the lock result), fire the backend check
(`sendKpoRequest`) and install the KPO wait.  Returns the updated
connection map and id counter, the resulting session and the emitted
effects; the caller appends the session to the session map. -/
def startSession (cfg : Config) (now : Nat) (conns : Pool.ConnMap) (idGen : Nat)
    (uid key apkey : String) (lockersF : List String) :
    Pool.ConnMap × Nat × Sess × List Eff :=
  let (idGen, s0) := createSession idGen uid key apkey
  let s1 := { s0 with rfid := some { uid := uid, lockersDataF := lockersF } }
  let (s2, denied) := checkTagReadDeny ((Pool.getConn conns key).bind (fun c => c.settings)) s1
  if denied then (conns, idGen, s2, [])
  else
    let (conns, lockRes) := Pool.LockTerminal conns key (sessionIdString now idGen) "Ожидание..."
    let lockEffs := match lockRes with | .ok e => e | .error _ => []
    -- sendKpoRequest: kpo bag with result UNDEF, stage → KPO_RESULT,
    -- backend check on its own task
    let s3 := { s2 with kpo := some { result := some .undef }, reqTime := now, stage := .kpoResult }
    -- Wait(session, SESSION_PROC_KPO, KPO_RESULT, 0, nil): timeout 0
    -- falls back to service_request_expire_time
    let s4 := { s3 with wait := some { procType := 0x01, expireTime := now + cfg.serviceRequestExpireTime, dstStage := .kpoResult } }
    (conns, idGen, s4, lockEffs ++ [Eff.backendCheck uid key])

end SessionMgr

namespace Daemon

open SessionM

/-- `daemon.getMemRegDenyMessage`. -/
def getMemRegDenyMessage (storage : String) : String :=
  if storage = "towel" then "СДАЙТЕ\nПОЛОТЕНЦЕ" else "СНИМИТЕ\nОТМЕТКУ"

/-- The daemon state `ProcessTagRead` touches: the pool's connections,
the two card deny lists, the MEMREG store and the session map. -/
structure DState where
  conns : Pool.ConnMap
  gmclist : List (String × String) := []
  mclist : List (String × String) := []
  memreg : Memreg.MemStore := []
  sessions : List Sess := []
  idGen : Nat := 0

/-- `Daemon.ProcessTagRead`: the access-action dispatch for a tag read.
Check the global deny list first (the denial message is sent only to
POCKET terminals), then the terminal's `memreg_deny` storage (message
to POCKET or JSP, plus the card-capture signal for
checkout/card_taker), then the secondary deny list, and otherwise
start a new access session.  Returns the new daemon state and the
emitted effects. -/
def ProcessTagRead (cfg : Config) (now : Nat) (st : DState)
    (connKey uid : String) (_readerType : Nat) (_auth : Bool) : DState × List Eff :=
  match Pool.getConn st.conns connKey with
  | none => (st, [])
  | some conn =>
    match conn.settings with
    | none => (st, [])
    | some settings =>
      let uidHex := Utils.upperS uid
      let globalMsg := Cardlist.CheckGlobal st.gmclist uidHex
      if globalMsg ≠ "" then
        let effs :=
          if settings.ttype = .pocket then
            [Eff.sendPocketInteractive 0x0A 0x00 globalMsg 3000 4 true]
          else []
        (st, effs)
      else if settings.memRegDeny ≠ "" ∧ Memreg.memHas st.memreg settings.memRegDeny uid = some true then
        let message := getMemRegDenyMessage settings.memRegDeny
        let msgEffs :=
          if settings.ttype = .pocket then
            [Eff.sendPocketInteractive 0x06 0x00 message 3000 4 true]
          else if settings.ttype = .jsp then
            if conn.connected ∧ conn.jspInit then [Eff.sendJspMessage message 3000] else []
          else []
        let sigEffs :=
          if settings.memRegRole = "checkout" ∧ settings.ctRole = "card_taker" then
            [Eff.sendPocketSignal 0x01 0x01 [0xDC, 0x05, 0x00, 0x00]]
          else []
        (st, msgEffs ++ sigEffs)
      else
        -- retrieve lockers and temp_card stashed by ReadTagExtended,
        -- clearing the Extra entries (deleting last_uid first makes the
        -- temp_card branch miss whenever lockers were present)
        let lockersAndSet :=
          match settings.lastLockersF, settings.lastUID with
          | some lf, some lu =>
            if lu = uid then (lf, { settings with lastLockersF := none, lastUID := none })
            else ([], settings)
          | _, _ => ([], settings)
        let lockersF := lockersAndSet.1
        let set1 := lockersAndSet.2
        let tempAndSet :=
          match set1.lastTempCard, set1.lastUID with
          | some tc, some lu =>
            if lu = uid then (tc, { set1 with lastTempCard := none })
            else (false, set1)
          | _, _ => (false, set1)
        let tempCard := tempAndSet.1
        let set2 := tempAndSet.2
        let conns1 := Pool.putConn st.conns connKey { conn with settings := some set2 }
        let secondaryMsg := Cardlist.CheckSecondary st.mclist uidHex
        if secondaryMsg ≠ "" then
          let effs :=
            if set2.ttype = .pocket then
              [Eff.sendPocketInteractive 0x0A 0x00 secondaryMsg 3000 4 true]
            else []
          ({ st with conns := conns1 }, effs)
        else
          let r := SessionMgr.startSession cfg now conns1 st.idGen uid connKey "MAIN" lockersF
          let conns2 := r.1
          let idGen := r.2.1
          let sess := r.2.2.1
          let sessEffs := r.2.2.2
          let sess :=
            if tempCard then
              match sess.rfid with
              | some rf => { sess with rfid := some { rf with tempCard := some true } }
              | none => sess
            else sess
          -- GAT Solar (TTYPE_TIME) extras: attach gat_solar to the
          -- session, log a GTime event and clear the Extra entries
          let solar :=
            match set2.gatSolar with
            | some g =>
              if g.terminalType = 0x02 then
                some { g with regQuery := set2.regQuery }
              else none
            | none => none
          let sess :=
            match solar with
            | some g => { sess with gatSolar := some g }
            | none => sess
          let gtEffs := match solar with | some _ => [Eff.registerGTime] | none => []
          let conns3 :=
            match solar with
            | some _ =>
              match Pool.getConn conns2 connKey with
              | some c2 =>
                match c2.settings with
                | some s2 => Pool.putConn conns2 connKey { c2 with settings := some { s2 with gatSolar := none } }
                | none => conns2
              | none => conns2
            | none => conns2
          ({ st with conns := conns3, idGen := idGen, sessions := st.sessions ++ [sess] },
           sessEffs ++ gtEffs ++ [Eff.webEvent "session_created"])

end Daemon

/-! ## Theorems -/

set_option maxRecDepth 8000

/-- C3: codec round trip fails — `pocket.DecodePacket` rejects
`pocket.EncodePacket`'s own output.  The 7-byte frame of a
payload-less command (0x06 Enquire) is below the decoder's 8-byte
minimum, and for a frame with a payload (0x16 InputChanged) the
decoder recomputes the CRC over a region that includes the checksum
bytes themselves, so the verification fails; the checked region
differs from the region the encoder checksummed. -/
theorem c3_pocket_roundtrip_bug :
    Pocket.DecodePacket (Pocket.EncodePacket 0x06 0x00 []) = .error .tooShort
    ∧ Pocket.DecodePacket (Pocket.EncodePacket 0x16 0x00 [0x01, 0x00]) = .error .crcMismatch
    ∧ Pocket.decodeCrcRegion (Pocket.EncodePacket 0x16 0x00 [0x01, 0x00])
        ≠ Pocket.encodeCrcRegion 0x16 0x00 [0x01, 0x00] := by
  refine ⟨by rfl, by rfl, by decide⟩

/-- C4 counterexample: on the buffer `00 04 7A E5 01 94` the GAT framing
layer does not reject the first byte and resync — it consumes nothing
(it waits for at least 8 bytes starting with 0x2A) and decodes no
frame, so no `REQ_MASTER` is produced and `last_activity` is not
updated. -/
theorem c4_counterexample :
    Pool.processGatData [0x00, 0x04, 0x7A, 0xE5, 0x01, 0x94]
      = ([0x00, 0x04, 0x7A, 0xE5, 0x01, 0x94], []) := by
  rw [Pool.processGatData]
  norm_num

/-- C4 amended: the GAT framing layer (a copy of the POCKET framing)
leaves the buffer `00 04 7A E5 01 94` untouched and hands nothing to
the decoder; and `gat.DecodePacket` itself rejects both that buffer
(length byte 0 is invalid) and the resynced `04 7A E5 01 94` (LRC
check fails: the XOR of the checked bytes is 0x9B, the byte read as
LRC is 0x01). -/
theorem c4_gat_resync_amended :
    Pool.processGatData [0x00, 0x04, 0x7A, 0xE5, 0x01, 0x94]
      = ([0x00, 0x04, 0x7A, 0xE5, 0x01, 0x94], [])
    ∧ Gat.DecodePacket [0x00, 0x04, 0x7A, 0xE5, 0x01, 0x94] = .error .badLen
    ∧ Gat.DecodePacket [0x04, 0x7A, 0xE5, 0x01, 0x94] = .error .lrcMismatch := by
  refine ⟨by rw [Pool.processGatData]; norm_num, by rfl, by rfl⟩

/-- On an empty buffer the JSP frame loop spins forever: `TryReadPacket`
keeps answering `noMore` and the Go `break` exits only the `switch`. -/
theorem processJSPLoop_nil_eq_none {J : Type} (parse : List Nat → Option J) :
    ∀ fuel acc, Pool.processJSPLoop parse fuel [] acc = none := by
  intro fuel
  induction fuel with
  | zero => intro acc; rfl
  | succ n ih =>
    intro acc
    show Pool.processJSPLoop parse (n + 1) [] acc = none
    simp only [Pool.processJSPLoop, Jsp.TryReadPacket]
    simpa using ih acc

/-- C10: the per-connection JSP frame-processing loop does not terminate
once the buffer is drained.  On the single non-SOF byte `0x05` the
first iteration clears the buffer and reports `noMore`, but the loop
runs again on the empty buffer and never exits, for every JSON decoder
and every amount of fuel. -/
theorem c10_jsp_loop_divergence {J : Type} (parse : List Nat → Option J) :
    ∀ fuel acc, Pool.processJSPLoop parse fuel [0x05] acc = none := by
  intro fuel acc
  cases fuel with
  | zero => rfl
  | succ n =>
    show Pool.processJSPLoop parse (n + 1) [0x05] acc = none
    simp only [Pool.processJSPLoop, Jsp.TryReadPacket]
    simpa using processJSPLoop_nil_eq_none parse n acc

/-- C6: when a session's KPO wait expires while `kpo.result` is still
`UNDEF`, `checkWait` resolves the kpo deterministically — `YES` with
the configured fixed message when `service_autofix_expired` is set,
otherwise `NO` with the configured link-error message — clears the
wait and advances the session to the wait's destination stage (the
only KPO wait the code installs targets `KPO_RESULT`; the hypothesis
excludes the zero-valued `INIT` that `waitDone` would skip). -/
theorem c6_kpo_wait_timeout (cfg : SessionM.Config) (now : Nat) (s : SessionM.Sess)
    (w : SessionM.WaitRec) (k : SessionM.KpoBag)
    (hw : s.wait = some w) (hp : w.procType = 0x01)
    (hk : s.kpo = some k) (hr : k.result = some .undef)
    (hexp : now > w.expireTime) (hd : w.dstStage ≠ .init) :
    (SessionM.checkWait cfg now s).2 = true
    ∧ (SessionM.checkWait cfg now s).1.kpo
        = some { result := some (if cfg.serviceAutofixExpired then .yes else .no),
                 message := some (if cfg.serviceAutofixExpired
                                  then cfg.serviceFixedMsg else cfg.serviceLinkErrMsg) }
    ∧ (SessionM.checkWait cfg now s).1.stage = w.dstStage
    ∧ (SessionM.checkWait cfg now s).1.wait = none := by
  simp only [SessionM.checkWait, hw, hk, hr, hp, hexp, SessionM.setKpoResult,
    SessionM.waitDone, hd, if_true, if_false, ne_eq, not_true_eq_false,
    reduceIte]
  by_cases hfix : cfg.serviceAutofixExpired
  · simp [hfix, hw, hd]
  · simp [hfix, hw, hd]

/-- C6 witness: a concrete expired KPO wait with autofix disabled. -/
theorem c6_kpo_wait_timeout_witness :
    let cfg : SessionM.Config := { serviceLinkErrMsg := "Нет связи", serviceRequestExpireTime := 5 }
    let w : SessionM.WaitRec := { procType := 0x01, expireTime := 10, dstStage := .kpoResult }
    let k : SessionM.KpoBag := { result := some .undef }
    let s : SessionM.Sess :=
      { id := 1, key := "T1", apkey := "MAIN", uid := "04AEECFA9B",
        stage := .kpoResult, kpo := some k, wait := some w }
    (SessionM.checkWait cfg 11 s).2 = true
    ∧ (SessionM.checkWait cfg 11 s).1.kpo
        = some { result := some .no, message := some "Нет связи" }
    ∧ (SessionM.checkWait cfg 11 s).1.stage = .kpoResult
    ∧ (SessionM.checkWait cfg 11 s).1.wait = none := by
  intro cfg w k s
  have h := c6_kpo_wait_timeout cfg 11 s w k rfl rfl rfl rfl (by norm_num) (by decide)
  simpa using h

/-- Replacing a bucket makes it the bucket subsequently found. -/
theorem bucket_putBucket (st : Memreg.MemStore) (sk : String) (l : List String) :
    Memreg.bucket (Memreg.putBucket st sk l) sk = l := by
  induction st with
  | nil => simp [Memreg.putBucket, Memreg.bucket]
  | cons p rest ih =>
    by_cases h : p.1 = sk
    · simp [Memreg.putBucket, Memreg.bucket, h]
    · rw [show Memreg.putBucket (p :: rest) sk l = p :: Memreg.putBucket rest sk l from by
        simp [Memreg.putBucket, h]]
      rw [show Memreg.bucket (p :: Memreg.putBucket rest sk l) sk
            = Memreg.bucket (Memreg.putBucket rest sk l) sk from by
        simp [Memreg.bucket, List.find?, h]]
      exact ih

/-- C7: MEMREG device semantics.  For a `memreg_dev` key parsing to
storage `S` with some mode and a uid parsing to `uk` (canonical keys
re-parse to themselves, as `Set`/`Del`/`Has` re-parse their
arguments), with `has` the current membership: `auto` toggles the
entry (absent → insert with the "set" message, present → delete with
the "clr" message); `set`/`disp` insert only when absent (otherwise
the value stays and the message is "info_set"); `clr`/`take` delete
only when present (otherwise the value stays absent and the message is
"info_clr"). -/
theorem c7_memreg_semantics (store : Memreg.MemStore) (dev U S : String)
    (mode : Memreg.Mode) (uk : Memreg.MemRegKey)
    (hne : dev ≠ "") (hUne : U ≠ "")
    (hdev : Memreg.ParseMemRegKey dev = some ⟨S, mode⟩)
    (huid : Memreg.ParseMemRegKey U = some uk)
    (hS : Memreg.ParseMemRegKey S = some ⟨S, .auto⟩)
    (hU2 : Memreg.ParseMemRegKey uk.storage = some ⟨uk.storage, .auto⟩) :
    (mode = .auto → uk.storage ∉ Memreg.bucket store S →
      ∃ st2, Pool.handleMemRegDevice dev U store
          = some ⟨st2, Pool.getMemRegMessage S "set", true, 1⟩
        ∧ Memreg.memHas st2 S uk.storage = some true)
    ∧ (mode = .auto → uk.storage ∈ Memreg.bucket store S →
      ∃ st2, Pool.handleMemRegDevice dev U store
          = some ⟨st2, Pool.getMemRegMessage S "clr", true, 1⟩
        ∧ Memreg.memHas st2 S uk.storage = some false)
    ∧ (mode = .set ∨ mode = .disp → uk.storage ∉ Memreg.bucket store S →
      ∃ st2, Pool.handleMemRegDevice dev U store
          = some ⟨st2, Pool.getMemRegMessage S "set", true, 1⟩
        ∧ Memreg.memHas st2 S uk.storage = some true)
    ∧ (mode = .set ∨ mode = .disp → uk.storage ∈ Memreg.bucket store S →
      Pool.handleMemRegDevice dev U store
          = some ⟨store, Pool.getMemRegMessage S "info_set", false, 3⟩
        ∧ Memreg.memHas store S uk.storage = some true)
    ∧ (mode = .clr ∨ mode = .take → uk.storage ∈ Memreg.bucket store S →
      ∃ st2, Pool.handleMemRegDevice dev U store
          = some ⟨st2, Pool.getMemRegMessage S "clr", true, 1⟩
        ∧ Memreg.memHas st2 S uk.storage = some false)
    ∧ (mode = .clr ∨ mode = .take → uk.storage ∉ Memreg.bucket store S →
      Pool.handleMemRegDevice dev U store
          = some ⟨store, Pool.getMemRegMessage S "info_clr", false, 3⟩
        ∧ Memreg.memHas store S uk.storage = some false) := by
  have hhas : Memreg.memHas store S uk.storage
      = some (decide (uk.storage ∈ Memreg.bucket store S)) := by
    simp [Memreg.memHas, hS, hU2]
  have hdel : Memreg.memDel store S uk.storage
      = some (Memreg.putBucket store S
          ((Memreg.bucket store S).filter (fun u => u ≠ uk.storage))) := by
    simp [Memreg.memDel, hS, hU2]
  refine ⟨?_, ?_, ?_, ?_, ?_, ?_⟩
  · intro hm habs
    subst hm
    have hs2 : Memreg.memSet store S uk.storage
        = some (Memreg.putBucket store S (Memreg.bucket store S ++ [uk.storage])) := by
      simp [Memreg.memSet, hS, hU2, habs]
    refine ⟨Memreg.putBucket store S (Memreg.bucket store S ++ [uk.storage]), ?_, ?_⟩
    · simp [Pool.handleMemRegDevice, hne, hUne, hdev, huid, hhas, habs, hs2]
    · simp [Memreg.memHas, hS, hU2, bucket_putBucket]
  · intro hm hpres
    subst hm
    refine ⟨Memreg.putBucket store S
        ((Memreg.bucket store S).filter (fun u => u ≠ uk.storage)), ?_, ?_⟩
    · simp [Pool.handleMemRegDevice, hne, hUne, hdev, huid, hhas, hpres, hdel]
    · simp [Memreg.memHas, hS, hU2, bucket_putBucket, List.mem_filter]
  · intro hm habs
    have hs2 : Memreg.memSet store S uk.storage
        = some (Memreg.putBucket store S (Memreg.bucket store S ++ [uk.storage])) := by
      simp [Memreg.memSet, hS, hU2, habs]
    rcases hm with hm | hm
    all_goals
      subst hm
      refine ⟨Memreg.putBucket store S (Memreg.bucket store S ++ [uk.storage]), ?_, ?_⟩
      · simp [Pool.handleMemRegDevice, hne, hUne, hdev, huid, hhas, habs, hs2]
      · simp [Memreg.memHas, hS, hU2, bucket_putBucket]
  · intro hm hpres
    rcases hm with hm | hm
    all_goals
      subst hm
      refine ⟨?_, ?_⟩
      · simp [Pool.handleMemRegDevice, hne, hUne, hdev, huid, hhas, hpres]
      · simp [Memreg.memHas, hS, hU2, hpres]
  · intro hm hpres
    rcases hm with hm | hm
    all_goals
      subst hm
      refine ⟨Memreg.putBucket store S
          ((Memreg.bucket store S).filter (fun u => u ≠ uk.storage)), ?_, ?_⟩
      · simp [Pool.handleMemRegDevice, hne, hUne, hdev, huid, hhas, hpres, hdel]
      · simp [Memreg.memHas, hS, hU2, bucket_putBucket, List.mem_filter]
  · intro hm habs
    rcases hm with hm | hm
    all_goals
      subst hm
      refine ⟨?_, ?_⟩
      · simp [Pool.handleMemRegDevice, hne, hUne, hdev, huid, hhas, habs]
      · simp [Memreg.memHas, hS, hU2, habs]

/-- C7 witness: on an empty store, reading uid `ABC123` at a
`towel/add` device inserts the towel mark with the "set" message, and
at a plain `towel` (auto) device the same happens. -/
theorem c7_memreg_semantics_witness :
    ∃ st2, Pool.handleMemRegDevice "towel/add" "ABC123" []
        = some ⟨st2, Pool.getMemRegMessage "towel" "set", true, 1⟩
      ∧ Memreg.memHas st2 "towel" "ABC123" = some true := by
  have h := c7_memreg_semantics [] "towel/add" "ABC123" "towel" .set ⟨"ABC123", .auto⟩
    (by decide) (by decide) (by decide) (by decide) (by decide) (by decide)
  exact h.2.2.1 (Or.inl rfl) (by simp [Memreg.bucket])

/-- C8 counterexample: a granted session in `LAST_ANSWER` is moved back
to `PASSED`, an earlier stage in the declared order — the machine does
move a session into an earlier stage. -/
theorem c8_counterexample :
    ((SessionM.stageStep {}
        { id := 1, key := "T1", apkey := "MAIN", uid := "04AEECFA9B",
          stage := .lastAnswer, result := some 1, message := some "Проходите" }).1.stage
      = SessionM.Stage.passed)
    ∧ SessionM.Stage.idx .passed < SessionM.Stage.idx .lastAnswer := by
  exact ⟨rfl, by decide⟩

/-- C8 amended: stage transitions are monotone in the declared order
except for exactly two backward transitions the code performs:
`LAST_ANSWER → PASSED` when the result is granted, and
`FIRST_PASSED → CAM_RESULT` when camera verification is required. -/
theorem c8_stage_monotonicity_amended (cfg : SessionM.Config) (s : SessionM.Sess) :
    SessionM.Stage.idx s.stage ≤ SessionM.Stage.idx (SessionM.stageStep cfg s).1.stage
    ∨ (s.stage = .lastAnswer ∧ (SessionM.stageStep cfg s).1.stage = .passed)
    ∨ (s.stage = .firstPassed ∧ (SessionM.stageStep cfg s).1.stage = .camResult) := by
  cases hs : s.stage <;>
    simp only [SessionM.stageStep, hs, SessionM.processKpoResult, SessionM.processKpoDirect,
      SessionM.processOpenFirst, SessionM.processFirstPassed, SessionM.processCamResult,
      SessionM.processOpenSecond, SessionM.processSecondPassed, SessionM.processPassed,
      SessionM.processLastAnswer, SessionM.processDone] <;>
    (try (repeat' split)) <;>
    simp_all [SessionM.Stage.idx]

/-- C5 counterexample: a 2xx response carrying both `RESULTVAL = 0` and
`RESULT = 1` is interpreted as denied, although `RESULT > 0` is set —
the response is not "granted whenever any of the three fields is
positive"; the first recognised field wins. -/
theorem c5_counterexample :
    Httpclient.lookupNum [("RESULTVAL", .num 0), ("RESULT", .num 1)] "RESULT" = some 1
    ∧ (Httpclient.checkAccessInterpret
        { serviceFixedMsg := "Проходите", serviceDeniedMsg := "Отказано" }
        ⟨200, [("RESULTVAL", .num 0), ("RESULT", .num 1)]⟩).1 = SessionM.KPORes.no := by
  exact ⟨rfl, rfl⟩

/-- C5 amended: HTTP 500 is a hard deny with the configured denied
message; otherwise the numeric fields are consulted in priority order
`RESULTVAL`, `RESULT`, `GRANT_ACCESS` — the first one present decides
(granted iff its value is positive) with the message drawn from
`MSGSTR`, `MESSAGE` then `DENYREASON`, and `TEXT` respectively
(defaulting to the fixed message, with an empty final message replaced
by the fixed message when granted and the denied message otherwise);
a response with none of the fields (e.g. an unparseable body) is
treated as granted with the configured fixed message. -/
theorem c5_backend_interpret_amended (cfg : SessionM.Config) (resp : Httpclient.HResp) :
    (resp.statusCode = 500 →
      Httpclient.checkAccessInterpret cfg resp = (.no, cfg.serviceDeniedMsg))
    ∧ (resp.statusCode ≠ 500 → ∀ v, Httpclient.lookupNum resp.data "RESULTVAL" = some v →
      Httpclient.checkAccessInterpret cfg resp =
        (let r : SessionM.KPORes := if v > 0 then .yes else .no
         let m := Httpclient.GetStringValue resp.data "MSGSTR" cfg.serviceFixedMsg
         (r, if m = "" then (if r = .yes then cfg.serviceFixedMsg else cfg.serviceDeniedMsg) else m)))
    ∧ (resp.statusCode ≠ 500 → Httpclient.lookupNum resp.data "RESULTVAL" = none →
       ∀ v, Httpclient.lookupNum resp.data "RESULT" = some v →
      Httpclient.checkAccessInterpret cfg resp =
        (let r : SessionM.KPORes := if v > 0 then .yes else .no
         let m := (Httpclient.lookupStr resp.data "MESSAGE").getD
           ((Httpclient.lookupStr resp.data "DENYREASON").getD cfg.serviceFixedMsg)
         (r, if m = "" then (if r = .yes then cfg.serviceFixedMsg else cfg.serviceDeniedMsg) else m)))
    ∧ (resp.statusCode ≠ 500 → Httpclient.lookupNum resp.data "RESULTVAL" = none →
       Httpclient.lookupNum resp.data "RESULT" = none →
       ∀ v, Httpclient.lookupNum resp.data "GRANT_ACCESS" = some v →
      Httpclient.checkAccessInterpret cfg resp =
        (let r : SessionM.KPORes := if v > 0 then .yes else .no
         let m := Httpclient.GetStringValue resp.data "TEXT" cfg.serviceFixedMsg
         (r, if m = "" then (if r = .yes then cfg.serviceFixedMsg else cfg.serviceDeniedMsg) else m)))
    ∧ (resp.statusCode ≠ 500 → Httpclient.lookupNum resp.data "RESULTVAL" = none →
       Httpclient.lookupNum resp.data "RESULT" = none →
       Httpclient.lookupNum resp.data "GRANT_ACCESS" = none →
      Httpclient.checkAccessInterpret cfg resp = (.yes, cfg.serviceFixedMsg)) := by
  refine ⟨?_, ?_, ?_, ?_, ?_⟩
  · intro h500
    simp [Httpclient.checkAccessInterpret, h500]
  · intro hns v hv
    simp only [Httpclient.checkAccessInterpret, hns, hv, if_neg hns]
    by_cases hvpos : v > 0 <;>
      by_cases hm : Httpclient.GetStringValue resp.data "MSGSTR" cfg.serviceFixedMsg = "" <;>
      simp_all
  · intro hns hrv v hv
    simp only [Httpclient.checkAccessInterpret, hns, hrv, hv, if_neg hns]
    rcases hmsg : Httpclient.lookupStr resp.data "MESSAGE" with _ | m <;>
      rcases hdr : Httpclient.lookupStr resp.data "DENYREASON" with _ | m2 <;>
      by_cases hvpos : v > 0 <;>
      simp_all <;> split <;> simp_all
  · intro hns hrv hr v hv
    simp only [Httpclient.checkAccessInterpret, hns, hrv, hr, hv, if_neg hns]
    by_cases hvpos : v > 0 <;>
      by_cases hm : Httpclient.GetStringValue resp.data "TEXT" cfg.serviceFixedMsg = "" <;>
      simp_all
  · intro hns hrv hr hg
    simp only [Httpclient.checkAccessInterpret, hns, hrv, hr, hg, if_neg hns]
    by_cases hfix : cfg.serviceFixedMsg = "" <;> simp_all

/-- C5 witness: an HTTP 500 with empty body yields a hard deny with the
configured denied message. -/
theorem c5_backend_interpret_witness :
    Httpclient.checkAccessInterpret { serviceDeniedMsg := "Отказано" } ⟨500, []⟩
      = (.no, "Отказано") := by
  exact (c5_backend_interpret_amended { serviceDeniedMsg := "Отказано" } ⟨500, []⟩).1 rfl

/-- Storing a connection makes it the one subsequently found. -/
theorem getConn_putConn (m : Pool.ConnMap) (k : String) (c : Pool.Conn) :
    Pool.getConn (Pool.putConn m k c) k = some c := by
  induction m with
  | nil => simp [Pool.putConn, Pool.getConn]
  | cons p rest ih =>
    by_cases h : p.1 = k
    · simp [Pool.putConn, Pool.getConn, h]
    · rw [show Pool.putConn (p :: rest) k c = p :: Pool.putConn rest k c from by
        simp [Pool.putConn, h]]
      rw [show Pool.getConn (p :: Pool.putConn rest k c) k
            = Pool.getConn (Pool.putConn rest k c) k from by
        simp [Pool.getConn, List.find?, h]]
      exact ih

/-- Storing the same connection twice is the same as storing it once. -/
theorem putConn_putConn (m : Pool.ConnMap) (k : String) (c : Pool.Conn) :
    Pool.putConn (Pool.putConn m k c) k c = Pool.putConn m k c := by
  induction m with
  | nil => simp [Pool.putConn]
  | cons p rest ih =>
    by_cases h : p.1 = k
    · simp [Pool.putConn, h]
    · simp [Pool.putConn, h, ih]

/-- C9 counterexample: locking a terminal already locked by session `s1`
on behalf of a different session `s2` is not refused — the call
succeeds and the lock owner becomes `s2`. -/
theorem c9_counterexample :
    ((Pool.LockTerminal
        [("T1", { connected := true,
                  settings := some { ttype := .pocket, readerLocked := some "s1" } })]
        "T1" "s2" "Ожидание...").2 = .ok [Eff.sendPocketLock "Ожидание..."])
    ∧ ((Pool.getConn
          (Pool.LockTerminal
            [("T1", { connected := true,
                      settings := some { ttype := .pocket, readerLocked := some "s1" } })]
            "T1" "s2" "Ожидание...").1 "T1").bind
        (fun c => c.settings.bind (fun st => st.readerLocked)) = some "s2") := by
  exact ⟨rfl, rfl⟩

/-- C9 amended: `unlock_terminal` is refused (with the map unchanged)
when the caller is not the lock owner; `lock_terminal` performs no
ownership check — on a live connection it always writes the caller as
the owner, overwriting any previous owner, and calling it twice with
the same session leaves the connection map exactly where one call left
it (though the lock frame is sent again). -/
theorem c9_lock_ownership_amended (m : Pool.ConnMap) (k sid text : String)
    (c : Pool.Conn) (hc : Pool.getConn m k = some c) (hconn : c.connected = true) :
    (∀ st owner, c.settings = some st → st.readerLocked = some owner → owner ≠ sid →
      Pool.UnlockTerminal m k sid = (m, .error "terminal not locked by session"))
    ∧ ((Pool.getConn (Pool.LockTerminal m k sid text).1 k).bind
        (fun c2 => c2.settings.bind (fun st => st.readerLocked)) = some sid)
    ∧ (Pool.LockTerminal (Pool.LockTerminal m k sid text).1 k sid text).1
        = (Pool.LockTerminal m k sid text).1 := by
  refine ⟨?_, ?_, ?_⟩
  · intro st owner hst hrl hown
    simp [Pool.UnlockTerminal, hc, hconn, hst, hrl, hown]
  · simp only [Pool.LockTerminal, hc, hconn]
    cases hty : (c.settings.getD {}).ttype <;>
      cases hjsp : c.jspInit <;>
      simp [hty, hjsp, getConn_putConn]
  · simp only [Pool.LockTerminal, hc, hconn]
    cases hty : (c.settings.getD {}).ttype <;>
      cases hjsp : c.jspInit <;>
      simp [hty, hjsp, getConn_putConn, putConn_putConn]

/-- C9 witness: with one live POCKET terminal locked by `s1`, an unlock
by `s2` is refused, and a lock by `s2` writes `s2` as the owner. -/
theorem c9_lock_ownership_witness :
    (Pool.UnlockTerminal
        [("T1", { connected := true,
                  settings := some { ttype := .pocket, readerLocked := some "s1" } })]
        "T1" "s2"
      = ([("T1", { connected := true,
                   settings := some { ttype := .pocket, readerLocked := some "s1" } })],
         .error "terminal not locked by session"))
    ∧ ((Pool.getConn
          (Pool.LockTerminal
            [("T1", { connected := true,
                      settings := some { ttype := .pocket, readerLocked := some "s1" } })]
            "T1" "s2" "жд").1 "T1").bind
        (fun c2 => c2.settings.bind (fun st => st.readerLocked)) = some "s2") := by
  have h := c9_lock_ownership_amended
    [("T1", { connected := true,
              settings := some { ttype := .pocket, readerLocked := some "s1" } })]
    "T1" "s2" "жд"
    { connected := true, settings := some { ttype := .pocket, readerLocked := some "s1" } }
    rfl rfl
  exact ⟨h.1 { ttype := .pocket, readerLocked := some "s1" } "s1" rfl rfl (by decide), h.2.1⟩

/-- Updating a session's rfid bag keeps its terminal key. -/
theorem sess_key_set_rfid (s : SessionM.Sess) (v : Option SessionM.RfidBag) :
    ({ s with rfid := v } : SessionM.Sess).key = s.key := by
  cases s
  rfl

/-- Updating a session's gat_solar bag keeps its terminal key. -/
theorem sess_key_set_gatSolar (s : SessionM.Sess) (v : Option SessionM.GatSolarBag) :
    ({ s with gatSolar := v } : SessionM.Sess).key = s.key := by
  cases s
  rfl

/-- `StartSession` always hands back a session keyed to the terminal it
was called for, whether or not `checkTagReadDeny` denied it. -/
theorem startSession_key (cfg : SessionM.Config) (now : Nat) (conns : Pool.ConnMap)
    (idGen : Nat) (uid key apkey : String) (lf : List String) :
    (SessionMgr.startSession cfg now conns idGen uid key apkey lf).2.2.1.key = key := by
  simp only [SessionMgr.startSession, SessionMgr.createSession, SessionMgr.checkTagReadDeny]
  repeat' split
  all_goals rfl

/-- C1 counterexample: terminal `T1` has a session in the non-terminal
stage `KPO_RESULT`, yet a further tag read on `T1` is not ignored — a
second session for `T1` is created (the session map grows to two
sessions, both keyed to `T1`). -/
theorem c1_counterexample :
    (SessionM.Stage.kpoResult ≠ SessionM.Stage.done)
    ∧ ((Daemon.ProcessTagRead {} 100
          { conns := [("T1", { connected := true, settings := some { ttype := .pocket } })],
            sessions := [{ id := 1, key := "T1", apkey := "MAIN", uid := "AA11BB22",
                           stage := .kpoResult }],
            idGen := 1 }
          "T1" "04AEECFA9B" 0 true).1.sessions.map (fun s => s.key) = ["T1", "T1"]) := by
  exact ⟨by decide, rfl⟩

set_option maxHeartbeats 1600000

/-- C1 amended: a tag read on a terminal that passes the deny-list and
MEMREG-deny checks always creates a fresh session for that terminal —
the code never checks whether the terminal already owns an active
session, so a second session is created even while an earlier one is
non-terminal. -/
theorem c1_session_uniqueness_amended (cfg : SessionM.Config) (now : Nat)
    (st : Daemon.DState) (connKey uid : String) (rt : Nat) (auth : Bool)
    (conn : Pool.Conn) (s0 : Pool.TerminalSettings)
    (hc : Pool.getConn st.conns connKey = some conn)
    (hs : conn.settings = some s0)
    (hg : Cardlist.CheckGlobal st.gmclist (Utils.upperS uid) = "")
    (hm : ¬(s0.memRegDeny ≠ "" ∧ Memreg.memHas st.memreg s0.memRegDeny uid = some true))
    (hsec : Cardlist.CheckSecondary st.mclist (Utils.upperS uid) = "") :
    ∃ s, (Daemon.ProcessTagRead cfg now st connKey uid rt auth).1.sessions
        = st.sessions ++ [s]
      ∧ s.key = connKey := by
  simp only [Daemon.ProcessTagRead, hc, hs, hg, hsec, if_neg hm]
  repeat' split
  all_goals
    first
      | exact absurd rfl (by assumption)
      | exact ⟨_, rfl, by
          simp only [sess_key_set_rfid, sess_key_set_gatSolar]
          exact startSession_key _ _ _ _ _ _ _ _⟩

/-- C1 witness: with a non-terminal session already attached to `T1`
and all deny checks passing, the tag read appends a second session
keyed to `T1`. -/
theorem c1_session_uniqueness_witness :
    ∃ s, (Daemon.ProcessTagRead {} 100
        { conns := [("T1", { connected := true, settings := some { ttype := .pocket } })],
          sessions := [{ id := 1, key := "T1", apkey := "MAIN", uid := "AA11BB22",
                         stage := .kpoResult }],
          idGen := 1 }
        "T1" "04AEECFA9B" 0 true).1.sessions
      = [{ id := 1, key := "T1", apkey := "MAIN", uid := "AA11BB22",
           stage := .kpoResult }] ++ [s]
    ∧ s.key = "T1" := by
  exact c1_session_uniqueness_amended {} 100
    { conns := [("T1", { connected := true, settings := some { ttype := .pocket } })],
      sessions := [{ id := 1, key := "T1", apkey := "MAIN", uid := "AA11BB22",
                     stage := .kpoResult }],
      idGen := 1 }
    "T1" "04AEECFA9B" 0 true
    { connected := true, settings := some { ttype := .pocket } }
    { ttype := .pocket }
    rfl rfl rfl (by decide) rfl

/-- C2 counterexample: with `GLOBAL` mapping the uid to a message, a tag
read on a JSP terminal produces no outbound frame at all (the denial
message is sent only to POCKET terminals), creates no session and
makes no backend call — not the claimed single JSP `message` frame. -/
theorem c2_counterexample :
    Daemon.ProcessTagRead {} 100
      { conns := [("J1", { connected := true, jspInit := true,
                           settings := some { ttype := .jsp } })],
        gmclist := [("04AEECFA9B", "Карта заблокирована")] }
      "J1" "04AEECFA9B" 0 true
    = ({ conns := [("J1", { connected := true, jspInit := true,
                            settings := some { ttype := .jsp } })],
         gmclist := [("04AEECFA9B", "Карта заблокирована")] }, []) := by
  rfl

/-- C2 amended: a `GLOBAL` deny-list hit stops the dispatch before any
session is created or backend call is made, but the denial message is
delivered only to POCKET terminals (one Interactive with the message,
3000 ms, error sound); on a JSP terminal nothing is sent — the state
is returned unchanged with an empty effect list. -/
theorem c2_global_deny_amended (cfg : SessionM.Config) (now : Nat)
    (st : Daemon.DState) (connKey uid : String) (rt : Nat) (auth : Bool)
    (conn : Pool.Conn) (s0 : Pool.TerminalSettings) (m : String)
    (hc : Pool.getConn st.conns connKey = some conn)
    (hs : conn.settings = some s0)
    (hg : Cardlist.CheckGlobal st.gmclist (Utils.upperS uid) = m)
    (hm : m ≠ "") :
    (s0.ttype = .jsp →
      Daemon.ProcessTagRead cfg now st connKey uid rt auth = (st, []))
    ∧ (s0.ttype = .pocket →
      Daemon.ProcessTagRead cfg now st connKey uid rt auth
        = (st, [Eff.sendPocketInteractive 0x0A 0x00 m 3000 4 true])) := by
  constructor
  · intro hty
    simp [Daemon.ProcessTagRead, hc, hs, hg, hm, hty]
  · intro hty
    simp [Daemon.ProcessTagRead, hc, hs, hg, hm, hty]

/-- C2 witness: the blocked uid on a JSP terminal yields no effect and
an unchanged state; on a POCKET terminal it yields exactly one
Interactive frame with the deny message and 3000 ms. -/
theorem c2_global_deny_witness :
    (Daemon.ProcessTagRead {} 100
        { conns := [("J1", { connected := true, jspInit := true,
                             settings := some { ttype := .jsp } })],
          gmclist := [("04AEECFA9B", "Карта заблокирована")] }
        "J1" "04AEECFA9B" 0 true
      = ({ conns := [("J1", { connected := true, jspInit := true,
                              settings := some { ttype := .jsp } })],
           gmclist := [("04AEECFA9B", "Карта заблокирована")] }, []))
    ∧ (Daemon.ProcessTagRead {} 100
        { conns := [("P1", { connected := true,
                             settings := some { ttype := .pocket } })],
          gmclist := [("04AEECFA9B", "Карта заблокирована")] }
        "P1" "04AEECFA9B" 0 true
      = ({ conns := [("P1", { connected := true,
                              settings := some { ttype := .pocket } })],
           gmclist := [("04AEECFA9B", "Карта заблокирована")] },
         [Eff.sendPocketInteractive 0x0A 0x00 "Карта заблокирована" 3000 4 true])) := by
  constructor
  · exact (c2_global_deny_amended {} 100
      { conns := [("J1", { connected := true, jspInit := true,
                           settings := some { ttype := .jsp } })],
        gmclist := [("04AEECFA9B", "Карта заблокирована")] }
      "J1" "04AEECFA9B" 0 true
      { connected := true, jspInit := true, settings := some { ttype := .jsp } }
      { ttype := .jsp } "Карта заблокирована"
      rfl rfl rfl (by decide)).1 rfl
  · exact (c2_global_deny_amended {} 100
      { conns := [("P1", { connected := true,
                           settings := some { ttype := .pocket } })],
        gmclist := [("04AEECFA9B", "Карта заблокирована")] }
      "P1" "04AEECFA9B" 0 true
      { connected := true, settings := some { ttype := .pocket } }
      { ttype := .pocket } "Карта заблокирована"
      rfl rfl rfl (by decide)).2 rfl

